import Mathlib

/-!
Shallow embedding of the OLB fog-placement engine
(`src/olb_algorithm.py`, `src/metrics.py`, `src/metrics_definitions.py`,
`src/environment.py`, `src/comparison_algorithms.py`).

Numeric attributes of devices are modelled as rationals (every concrete
float input is a rational); the latency pipeline, which uses `math.log10`,
`10**x` and `math.sqrt`, is modelled over the reals with exact real
semantics.  Python exceptions (`ZeroDivisionError`, `ValueError` from
`math.log10`, the unbound-local read in the metrics collector) are made
explicit: fallible computations return `Option`/`Except`, with `none`
standing for the caught-exception path that the source converts into the
`float('inf')` rejection sentinel.
-/

/-- `SensorDevice` from `src/devices.py`: the attributes used by the OLB
equations.  Coordinates are split into `x`/`y` components. -/
structure SensorDevice where
  device_id : ℕ
  x : ℚ
  y : ℚ
  transmissionPower : ℚ
  averageFlowRate : ℚ
  flowTrafficSize : ℚ
  averageFlowSize : ℚ
deriving DecidableEq

/-- `FogNodeDevice` from `src/devices.py`. -/
structure FogNodeDevice where
  node_id : ℕ
  x : ℚ
  y : ℚ
  processingPower : ℚ
  bandwidth : ℚ
  carrierFrequency : ℚ
  noisePower : ℚ
deriving DecidableEq

/-- `OLBLatencyCalculator.calculate_distance`: Euclidean distance. -/
noncomputable def calculate_distance (sx sy fx fy : ℚ) : ℝ :=
  Real.sqrt (((sx : ℝ) - fx) ^ 2 + ((sy : ℝ) - fy) ^ 2)

/-- The speed of light constant from `OLBLatencyCalculator.__init__`. -/
def speed_of_light : ℝ := 299792458

/-- `OLBLatencyCalculator.calculate_channel_gain`: free-space path loss with
the `distance == 0 -> distance = 1` guard.  Returns `none` on the paths
where Python raises (`carrier_frequency == 0` gives `ZeroDivisionError`,
`math.log10` of a non-positive argument gives `ValueError`). -/
noncomputable def calculate_channel_gain (distance : ℝ) (carrier_frequency : ℚ) :
    Option ℝ :=
  let d := if distance = 0 then 1 else distance
  if (carrier_frequency : ℝ) * 1e9 = 0 then none
  else
    let wavelength := speed_of_light / ((carrier_frequency : ℝ) * 1e9)
    if (4 * Real.pi * d) ^ 2 = 0 then none
    else
      let garg := wavelength ^ 2 / (4 * Real.pi * d) ^ 2
      if garg ≤ 0 then none
      else some (10 * Real.logb 10 garg)

/-- The device-capacity chain inlined in
`OLBLatencyCalculator.calculate_communication_latency` (lines 55-68 of
`src/olb_algorithm.py`): distance, wavelength, channel gain (NOTE: inlined
WITHOUT the `distance == 0` guard of `calculate_channel_gain`), SNR and
capacity.  `none` marks a raised-and-caught Python exception. -/
noncomputable def deviceCapacityOf (s : SensorDevice) (f : FogNodeDevice) :
    Option ℝ :=
  let d := calculate_distance s.x s.y f.x f.y
  if (f.carrierFrequency : ℝ) * 1e9 = 0 then none
  else
    let wavelength := speed_of_light / ((f.carrierFrequency : ℝ) * 1e9)
    if (4 * Real.pi * d) ^ 2 = 0 then none
    else
      let garg := wavelength ^ 2 / (4 * Real.pi * d) ^ 2
      if garg ≤ 0 then none
      else
        let channel_gain := 10 * Real.logb 10 garg
        let linear_gain := (10 : ℝ) ^ (channel_gain / 10)
        if (f.noisePower : ℝ) = 0 then none
        else
          let snr := (s.transmissionPower : ℝ) * linear_gain / (f.noisePower : ℝ)
          some ((f.bandwidth : ℝ) * (1 + snr))

/-- Total traffic load `TLj`: the candidate sensor's individual load plus the
load of every already-assigned sensor, each divided by the device capacity
(lines 71-77 of `src/olb_algorithm.py`). -/
noncomputable def totalTrafficLoad (capacity : ℝ) (s : SensorDevice)
    (assigned : List SensorDevice) : ℝ :=
  assigned.foldl
    (fun acc a => acc + (a.averageFlowRate : ℝ) * (a.flowTrafficSize : ℝ) / capacity)
    ((s.averageFlowRate : ℝ) * (s.flowTrafficSize : ℝ) / capacity)

/-- `OLBLatencyCalculator.calculate_communication_latency`.  `none` is the
`float('inf')` sentinel returned from the `except` clause. -/
noncomputable def calculate_communication_latency (s : SensorDevice)
    (f : FogNodeDevice) (assigned : List SensorDevice) : Option ℝ :=
  match deviceCapacityOf s f with
  | none => none
  | some capacity =>
    if capacity = 0 then none
    else
      let total_traffic_load := totalTrafficLoad capacity s assigned
      let tl := if 1 ≤ total_traffic_load then (99 / 100 : ℝ) else total_traffic_load
      some (tl / (1 - tl))

/-- Total computing load `CLj` (lines 97-103 of `src/olb_algorithm.py`). -/
def totalComputingLoad (s : SensorDevice) (f : FogNodeDevice)
    (assigned : List SensorDevice) : ℚ :=
  assigned.foldl
    (fun acc a => acc + a.averageFlowRate * a.averageFlowSize / f.processingPower)
    (s.averageFlowRate * s.averageFlowSize / f.processingPower)

/-- `OLBLatencyCalculator.calculate_computing_latency`.  `none` is the
`float('inf')` sentinel (here reachable only through `processingPower == 0`,
the `ZeroDivisionError` path). -/
def calculate_computing_latency (s : SensorDevice) (f : FogNodeDevice)
    (assigned : List SensorDevice) : Option ℚ :=
  if f.processingPower = 0 then none
  else
    let total_computing_load := totalComputingLoad s f assigned
    let cl := if 1 ≤ total_computing_load then (99 / 100 : ℚ) else total_computing_load
    some (cl / (1 - cl))

/-- Python `str.split("_")` on the character list of a module name
(single-character separator semantics: `"a__b" -> ["a", "", "b"]`,
`"" -> [""]`). -/
def splitParts : List Char → List (List Char)
  | [] => [[]]
  | c :: cs =>
    if c = '_' then [] :: splitParts cs
    else
      match splitParts cs with
      | [] => [[c]]
      | p :: ps => (c :: p) :: ps

/-- Python `str.isdigit()` for ASCII module names: nonempty and all digits. -/
def isDigitPart (p : List Char) : Bool :=
  !p.isEmpty && p.all Char.isDigit

/-- Python `int(part)` for a digit string. -/
def digitsVal (p : List Char) : ℕ :=
  p.foldl (fun n c => 10 * n + (c.toNat - 48)) 0

/-- `OLBPlacement._extract_sensor_id`: split on underscores, scan the parts
in reverse, return the first all-digit part as an integer, else 0. -/
def extract_sensor_id (module_name : String) : ℕ :=
  match (splitParts module_name.toList).reverse.find? isDigitPart with
  | some p => digitsVal p
  | none => 0

/-- Boolean list-prefix test (for the substring check below). -/
def isPrefixL : List Char → List Char → Bool
  | [], _ => true
  | _ :: _, [] => false
  | a :: as, b :: bs => a == b && isPrefixL as bs

/-- Boolean substring test, modelling Python's `pat in str`. -/
def hasSub (pat : List Char) : List Char → Bool
  | [] => pat.isEmpty
  | c :: rest => isPrefixL pat (c :: rest) || hasSub pat rest

/-- The `"Processing_Module" in module_name` filter of `initial_allocation`. -/
def isProcessingModule (module_name : String) : Bool :=
  hasSub "Processing_Module".toList module_name.toList

/-- `OLBPlacement._find_sensor_by_id`: first sensor with the given id. -/
def find_sensor_by_id (sensors : List SensorDevice) (sensor_id : ℕ) :
    Option SensorDevice :=
  sensors.find? (fun s => s.device_id == sensor_id)

/-- The `module_assignments` dict: fog-node id to ordered sensor list, in
insertion order. -/
abbrev AssignMap := List (ℕ × List SensorDevice)

/-- `self.module_assignments.get(i, [])`. -/
def assignedOf (asg : AssignMap) (i : ℕ) : List SensorDevice :=
  ((asg.find? (fun p => p.1 == i)).map Prod.snd).getD []

/-- The dict update
`if i not in m: m[i] = []` followed by `m[i].append(s)`: append to the
entry with key `i` (dict keys are unique), or add a new key at the end. -/
def pushAssign : AssignMap → ℕ → SensorDevice → AssignMap
  | [], i, s => [(i, [s])]
  | (k, l) :: rest, i, s =>
    if k = i then (k, l ++ [s]) :: rest else (k, l) :: pushAssign rest i s

/-- One node's score in `_find_optimal_fog_node`:
`comm + comp` against the node's current assignment list, `none` when either
latency is the infinite sentinel (an infinite total never beats
`min_latency`, so such nodes are rejected). -/
noncomputable def nodeTotal (s : SensorDevice) (asg : AssignMap) (i : ℕ)
    (f : FogNodeDevice) : Option ℝ :=
  match calculate_communication_latency s f (assignedOf asg i),
        calculate_computing_latency s f (assignedOf asg i) with
  | some a, some b => some (a + (b : ℝ))
  | _, _ => none

/-- The running-minimum loop of `_find_optimal_fog_node`: `i` is the index of
the first node of the remaining list, the accumulator holds the best
`(node index, total latency)` so far (`none` plays `min_latency = inf`).
The update uses strict `<`, so ties keep the earlier node. -/
noncomputable def findBest (s : SensorDevice) (asg : AssignMap) :
    ℕ → List FogNodeDevice → Option (ℕ × ℝ) → Option (ℕ × ℝ)
  | _, [], best => best
  | i, f :: fs, best =>
    findBest s asg (i + 1) fs
      (match nodeTotal s asg i f with
       | none => best
       | some t =>
         match best with
         | none => some (i, t)
         | some (j, m) => if t < m then some (i, t) else some (j, m))

/-- `OLBPlacement._find_optimal_fog_node`. -/
noncomputable def find_optimal_fog_node (s : SensorDevice)
    (fog_nodes : List FogNodeDevice) (asg : AssignMap) : Option ℕ :=
  (findBest s asg 0 fog_nodes none).map Prod.fst

/-- The per-module loop body of `OLBPlacement.initial_allocation`, threading
the `module_assignments` map and the list of `deploy_module` calls
(module name, target node name).  A missing sensor is skipped entirely; a
successful OLB decision deploys and records the sensor; the all-rejected
fallback deploys to `"fog_0"` WITHOUT recording the sensor in the map. -/
noncomputable def allocGo (sensors : List SensorDevice)
    (fog_nodes : List FogNodeDevice) :
    List String → AssignMap → List (String × String) →
    AssignMap × List (String × String)
  | [], asg, log => (asg, log)
  | m :: ms, asg, log =>
    match find_sensor_by_id sensors (extract_sensor_id m) with
    | none => allocGo sensors fog_nodes ms asg log
    | some s =>
      match find_optimal_fog_node s fog_nodes asg with
      | some j =>
          allocGo sensors fog_nodes ms (pushAssign asg j s)
            (log ++ [(m, "fog_" ++ toString j)])
      | none => allocGo sensors fog_nodes ms asg (log ++ [(m, "fog_0")])

/-- `OLBPlacement.initial_allocation`: filter the app's modules to the
processing modules, then run the per-module loop starting from an empty
assignment map. -/
noncomputable def initial_allocation (sensors : List SensorDevice)
    (fog_nodes : List FogNodeDevice) (modules : List String) :
    AssignMap × List (String × String) :=
  allocGo sensors fog_nodes (modules.filter isProcessingModule) [] []

/-- Ghost trace of `initial_allocation`: the sensors recorded in
`module_assignments`, in placement order (one entry per module whose sensor
lookup succeeded and whose OLB decision returned a node). -/
noncomputable def allocPlaced (sensors : List SensorDevice)
    (fog_nodes : List FogNodeDevice) :
    List String → AssignMap → List SensorDevice
  | [], _ => []
  | m :: ms, asg =>
    match find_sensor_by_id sensors (extract_sensor_id m) with
    | none => allocPlaced sensors fog_nodes ms asg
    | some s =>
      match find_optimal_fog_node s fog_nodes asg with
      | some j => s :: allocPlaced sensors fog_nodes ms (pushAssign asg j s)
      | none => allocPlaced sensors fog_nodes ms asg

/-- All sensor entries across the assignment map. -/
def flattenAssign (asg : AssignMap) : List SensorDevice :=
  (asg.map Prod.snd).flatten

/-- `DigitalTwinEnvironment` from `src/environment.py` (the fields the
claims touch: extent plus the owned entity lists). -/
structure DigitalTwinEnvironment where
  width : ℚ
  height : ℚ
  sensors : List SensorDevice
  fog_nodes : List FogNodeDevice
deriving DecidableEq

/-- The bounds predicate of `add_sensor`/`add_fog_node`:
`0 <= x <= width and 0 <= y <= height`. -/
def inBounds (env : DigitalTwinEnvironment) (x y : ℚ) : Prop :=
  0 ≤ x ∧ x ≤ env.width ∧ 0 ≤ y ∧ y ≤ env.height

instance (env : DigitalTwinEnvironment) (x y : ℚ) : Decidable (inBounds env x y) := by
  unfold inBounds
  infer_instance

/-- `DigitalTwinEnvironment.add_sensor`: append if in bounds, else raise
`ValueError` (the environment is untouched on the error path). -/
def add_sensor (env : DigitalTwinEnvironment) (s : SensorDevice) :
    Except String DigitalTwinEnvironment :=
  if inBounds env s.x s.y then
    Except.ok { env with sensors := env.sensors ++ [s] }
  else
    Except.error "ValueError: Sensor coordinates outside environment bounds"

/-- `DigitalTwinEnvironment.add_fog_node`. -/
def add_fog_node (env : DigitalTwinEnvironment) (f : FogNodeDevice) :
    Except String DigitalTwinEnvironment :=
  if inBounds env f.x f.y then
    Except.ok { env with fog_nodes := env.fog_nodes ++ [f] }
  else
    Except.error "ValueError: Fog node coordinates outside environment bounds"

/-- The local `transmission_energy` of
`MetricsDefinitions.calculate_energy_consumption`:
`transmissionPower * (flowTrafficSize / (bandwidth * 1e-3))`. -/
def transmission_energy (s : SensorDevice) (f : FogNodeDevice) : ℚ :=
  s.transmissionPower * (s.flowTrafficSize / (f.bandwidth * (1 / 1000)))

/-- The local `processing_energy` of
`MetricsDefinitions.calculate_energy_consumption`:
`processingPower * 1e-6 * (averageFlowSize / processingPower * 1e-3)`. -/
def processing_energy (s : SensorDevice) (f : FogNodeDevice) : ℚ :=
  f.processingPower * (1 / 1000000) * (s.averageFlowSize / f.processingPower * (1 / 1000))

/-- `MetricsDefinitions.calculate_energy_consumption`.  The `distance`
argument is accepted and unused, as in the source.  `none` models the
uncaught `ZeroDivisionError` paths (`bandwidth * 1e-3 == 0`,
`processingPower == 0`). -/
def calculate_energy_consumption (s : SensorDevice) (f : FogNodeDevice)
    (distance : ℝ) : Option ℚ :=
  if f.bandwidth * (1 / 1000) = 0 then none
  else if f.processingPower = 0 then none
  else some (transmission_energy s f + processing_energy s f)

/-- `MetricsDefinitions.calculate_load_balance_score`: `0` for an empty
map, `1.0` for at most one node, else `1 / (1 + population variance of the
per-node assignment counts)`. -/
def calculate_load_balance_score (assignments : AssignMap) : ℚ :=
  if assignments = [] then 0
  else
    let loads := assignments.map (fun p => ((p.2.length : ℚ)))
    if loads.length ≤ 1 then 1
    else
      let mean_load := loads.sum / (loads.length : ℚ)
      let variance := (loads.map (fun load => (load - mean_load) ^ 2)).sum / (loads.length : ℚ)
      1 / (1 + variance)

/-- One row of `detailed_assignments` in `PerformanceMetrics`. -/
structure DetailedAssignment where
  sensor_id : ℕ
  fog_node_id : ℕ
  comm_latency : ℝ
  comp_latency : ℝ
  total_latency : ℝ
  energy : ℚ
  distance : ℝ
  sensor_x : ℚ
  sensor_y : ℚ
  fog_x : ℚ
  fog_y : ℚ

/-- The aggregate outputs of `PerformanceMetrics.collect_metrics`. -/
structure MetricsResult where
  overall_latency : ℝ
  communication_latency : ℝ
  computing_latency : ℝ
  network_usage : ℚ
  execution_time : ℝ
  energy_consumption : ℚ
  cost_of_execution : ℝ
  load_balance_score : ℚ
  max_utilization : ℕ
  detailed_assignments : List DetailedAssignment

/-- The inner (per-sensor) loop of `collect_metrics`.  The state threads the
Python local `energy` (`Option`: `none` while still unbound), the three
running totals and the detail rows.  The `[TRACE]` print reads `energy`
BEFORE it is computed for the current iteration: on the first iteration the
local is unbound and Python raises `UnboundLocalError`, modelled as
`Except.error`. -/
noncomputable def metricsInner (fog : FogNodeDevice)
    (assigned : List SensorDevice) :
    List SensorDevice → Option ℚ → ℝ → ℝ → ℚ → List DetailedAssignment →
    Except String (Option ℚ × ℝ × ℝ × ℚ × List DetailedAssignment)
  | [], energyVar, tcm, tcp, te, det => Except.ok (energyVar, tcm, tcp, te, det)
  | sensor :: rest, energyVar, tcm, tcp, te, det =>
    let others := assigned.filter (fun s => decide (s ≠ sensor))
    let comm := calculate_communication_latency sensor fog others
    let comp := calculate_computing_latency sensor fog others
    match energyVar with
    | none => Except.error "UnboundLocalError: local variable energy referenced before assignment"
    | some _ =>
      let cc : ℝ × ℝ :=
        match comm, comp with
        | some a, some b => (a, (b : ℝ))
        | _, _ => (1000, 1000)
      let distance := calculate_distance sensor.x sensor.y fog.x fog.y
      match calculate_energy_consumption sensor fog distance with
      | none => Except.error "ZeroDivisionError"
      | some e =>
        metricsInner fog assigned rest (some e) (tcm + cc.1) (tcp + cc.2) (te + e)
          (det ++ [{ sensor_id := sensor.device_id, fog_node_id := fog.node_id,
                     comm_latency := cc.1, comp_latency := cc.2,
                     total_latency := cc.1 + cc.2, energy := e,
                     distance := distance, sensor_x := sensor.x,
                     sensor_y := sensor.y, fog_x := fog.x, fog_y := fog.y }])

/-- The outer (per-node) loop of `collect_metrics`: skips map keys beyond
the fog-node list, collects per-node utilizations, and runs the inner loop
with the shared `energy` local. -/
noncomputable def metricsOuter (dt : DigitalTwinEnvironment) :
    AssignMap → Option ℚ → ℝ → ℝ → ℚ → List ℕ → List DetailedAssignment →
    Except String (ℝ × ℝ × ℚ × List ℕ × List DetailedAssignment)
  | [], _, tcm, tcp, te, utils, det => Except.ok (tcm, tcp, te, utils, det)
  | (node_id, assigned) :: rest, energyVar, tcm, tcp, te, utils, det =>
    if h : node_id < dt.fog_nodes.length then
      match metricsInner (dt.fog_nodes.get ⟨node_id, h⟩) assigned assigned
          energyVar tcm tcp te det with
      | Except.error e => Except.error e
      | Except.ok (eV, tcm2, tcp2, te2, det2) =>
          metricsOuter dt rest eV tcm2 tcp2 te2 (utils ++ [assigned.length]) det2
    else
      metricsOuter dt rest energyVar tcm tcp te utils det

/-- `PerformanceMetrics.collect_metrics`: runs the two loops over the
placement's `module_assignments`, then derives the aggregate KPIs. -/
noncomputable def collect_metrics (dt : DigitalTwinEnvironment)
    (module_assignments : AssignMap) : Except String MetricsResult :=
  match metricsOuter dt module_assignments none 0 0 0 [] [] with
  | Except.error e => Except.error e
  | Except.ok (tcm, tcp, te, utils, det) =>
    let overall := tcm + tcp
    let network_usage : ℚ :=
      (dt.sensors.map (fun s => s.averageFlowRate * s.flowTrafficSize)).sum
    Except.ok
      { overall_latency := overall
        communication_latency := tcm
        computing_latency := tcp
        network_usage := network_usage
        execution_time :=
          if dt.sensors.length = 0 then 0 else overall / (dt.sensors.length : ℝ)
        energy_consumption := te
        cost_of_execution :=
          overall * (1 / 10) + (network_usage : ℝ) * (1 / 20) + (te : ℝ) * (1 / 50)
        load_balance_score := calculate_load_balance_score module_assignments
        max_utilization := utils.foldl max 0
        detailed_assignments := det }

/-- Score of node `k` of the fog-node list (index into the list), as
`_find_optimal_fog_node` computes it: `none` past the end of the list or
when the node is rejected. -/
noncomputable def totalAt (s : SensorDevice) (asg : AssignMap)
    (fogs : List FogNodeDevice) (k : ℕ) : Option ℝ :=
  match fogs.get? k with
  | none => none
  | some f => nodeTotal s asg k f

/-- Concrete sensor at the origin: transmission power 1600 W, flow rate 1 Hz,
traffic size 1 MB, flow size 200 MI. -/
def sensor0 : SensorDevice :=
  { device_id := 0, x := 0, y := 0, transmissionPower := 1600,
    averageFlowRate := 1, flowTrafficSize := 1, averageFlowSize := 200 }

/-- Concrete fog node at `(3,4)` (distance 5 from `sensor0`): processing
power 100 MIPS, bandwidth 0.1 MHz, carrier frequency `299792458e-9` GHz
(making the wavelength exactly 1 m), noise power 1 W. -/
def fog0 : FogNodeDevice :=
  { node_id := 0, x := 3, y := 4, processingPower := 100,
    bandwidth := 1 / 10, carrierFrequency := 299792458 / 1000000000,
    noisePower := 1 }

/-- The device capacity that `calculate_communication_latency` derives for
`sensor0`/`fog0`: `0.1 * (1 + 4 / pi^2)`. -/
noncomputable def cap0 : ℝ := (1 / 10) * (1 + 4 / Real.pi ^ 2)

/-- Concrete sensor and fog node at identical coordinates `(7,11)` with
positive transmission power, bandwidth, carrier frequency and noise power. -/
def sensor3 : SensorDevice :=
  { device_id := 3, x := 7, y := 11, transmissionPower := 1 / 2,
    averageFlowRate := 1, flowTrafficSize := 1 / 2, averageFlowSize := 500 }

/-- Fog node co-located with `sensor3`. -/
def fog3 : FogNodeDevice :=
  { node_id := 0, x := 7, y := 11, processingPower := 2000, bandwidth := 50,
    carrierFrequency := 12 / 5, noisePower := 1 / 10000000000 }

/-- Concrete sensor for the energy counterexample: all attributes 1. -/
def sensor6 : SensorDevice :=
  { device_id := 6, x := 0, y := 0, transmissionPower := 1,
    averageFlowRate := 1, flowTrafficSize := 1, averageFlowSize := 1 }

/-- Concrete fog node for the energy counterexample: all attributes 1. -/
def fog6 : FogNodeDevice :=
  { node_id := 0, x := 0, y := 0, processingPower := 1, bandwidth := 1,
    carrierFrequency := 1, noisePower := 1 }

/-- Concrete sensor with individual computing load `50/100 = 0.5` on `fog9`. -/
def sensor9 : SensorDevice :=
  { device_id := 9, x := 0, y := 0, transmissionPower := 1,
    averageFlowRate := 1, flowTrafficSize := 1, averageFlowSize := 50 }

/-- Concrete fog node with processing power 100 MIPS. -/
def fog9 : FogNodeDevice :=
  { node_id := 0, x := 0, y := 0, processingPower := 100, bandwidth := 1,
    carrierFrequency := 1, noisePower := 1 }

/-- Already-assigned sensor contributing computing load `0.495`. -/
def sensor9a : SensorDevice :=
  { device_id := 10, x := 0, y := 0, transmissionPower := 1,
    averageFlowRate := 1, flowTrafficSize := 1, averageFlowSize := 99 / 2 }

/-- Already-assigned sensor contributing computing load `0.5`. -/
def sensor9b : SensorDevice :=
  { device_id := 11, x := 0, y := 0, transmissionPower := 1,
    averageFlowRate := 1, flowTrafficSize := 1, averageFlowSize := 50 }

/-- Concrete digital twin for the metrics-collector evaluation. -/
def dt2 : DigitalTwinEnvironment :=
  { width := 3000, height := 2000, sensors := [sensor0], fog_nodes := [fog0] }

/-- Concrete empty environment of extent `3000 x 2000`. -/
def env0 : DigitalTwinEnvironment :=
  { width := 3000, height := 2000, sensors := [], fog_nodes := [] }

/-- Fog node with a negative x-coordinate (out of bounds for `env0`). -/
def fogOut : FogNodeDevice :=
  { node_id := 5, x := -1, y := 0, processingPower := 1, bandwidth := 1,
    carrierFrequency := 1, noisePower := 1 }

/-- Helper: at coincident coordinates the inlined channel-gain denominator of
`calculate_communication_latency` is zero, so the function takes the
`ZeroDivisionError` path and returns the infinite sentinel. -/
theorem comm_none_of_equal_coords (s : SensorDevice) (f : FogNodeDevice)
    (hx : s.x = f.x) (hy : s.y = f.y) (assigned : List SensorDevice) :
    calculate_communication_latency s f assigned = none := by
  have hd : calculate_distance s.x s.y f.x f.y = 0 := by
    unfold calculate_distance
    rw [hx, hy]
    simp
  unfold calculate_communication_latency deviceCapacityOf
  rw [hd]
  by_cases hcf : (f.carrierFrequency : ℝ) * 1e9 = 0
  · simp [hcf]
  · simp [hcf]

/-- Claim C3 (code bug): for a sensor and fog node at identical coordinates
with positive transmission power, bandwidth, carrier frequency and noise
power, `calculate_communication_latency` does NOT treat the distance as 1:
it inlines the channel-gain formula without the `distance == 0` guard of
`calculate_channel_gain`, divides by `(4*pi*0)^2 = 0`, and the caught
`ZeroDivisionError` yields the infinite rejection sentinel for every list of
already-assigned sensors — while `calculate_channel_gain` itself (second
conjunct) does treat distance 0 as 1, witnessing the intended behaviour. -/
theorem comm_latency_zero_distance_sentinel :
    (∀ assigned : List SensorDevice,
      calculate_communication_latency sensor3 fog3 assigned = none)
    ∧ calculate_channel_gain 0 fog3.carrierFrequency
        = calculate_channel_gain 1 fog3.carrierFrequency := by
  constructor
  · intro assigned
    exact comm_none_of_equal_coords sensor3 fog3 rfl rfl assigned
  · unfold calculate_channel_gain
    norm_num

/-- Claim C9: the clamped computing latency is not monotone in load.
`sensor9` has individual load `0.5` on `fog9`; with `[sensor9a]` already
assigned the total load is `0.995`, inside `(0.99, 1)`, escaping the clamp
and giving latency `199`; adding `sensor9b` pushes the total to
`1.495 ≥ 1`, the clamp rewrites it to `0.99`, and the latency drops to
`99 < 199` on the strictly larger list. -/
theorem computing_latency_not_monotone :
    calculate_computing_latency sensor9 fog9 [sensor9a] = some 199
    ∧ calculate_computing_latency sensor9 fog9 [sensor9a, sensor9b] = some 99
    ∧ List.Sublist [sensor9a] [sensor9a, sensor9b]
    ∧ (99 : ℚ) < 199 := by
  refine ⟨?_, ?_, ?_, by norm_num⟩
  · norm_num [calculate_computing_latency, totalComputingLoad, sensor9, sensor9a, fog9]
  · norm_num [calculate_computing_latency, totalComputingLoad, sensor9, sensor9a,
      sensor9b, fog9]
  · exact List.sublist_append_left [sensor9a] [sensor9b]

/-- Claim C6 counterexample: the transmission-energy term computed by
`calculate_energy_consumption` divides by `bandwidth * 1e-3`, not by
`bandwidth`: at all-ones inputs the code yields `1000`, not the claimed
`transmissionPower * (trafficSize / bandwidth) = 1`. -/
theorem transmission_energy_counterexample :
    transmission_energy sensor6 fog6
      ≠ sensor6.transmissionPower * (sensor6.flowTrafficSize / fog6.bandwidth) := by
  norm_num [transmission_energy, sensor6, fog6]

/-- Claim C7 counterexample: on the empty assignment map
`calculate_load_balance_score` returns `0`, which is not in `(0, 1]`, so
the claim quantified over every assignment map fails at the empty map. -/
theorem load_balance_score_empty_map :
    calculate_load_balance_score [] = 0
    ∧ ¬ (0 < calculate_load_balance_score []
          ∧ calculate_load_balance_score [] ≤ 1) := by
  constructor
  · rfl
  · intro h
    norm_num [calculate_load_balance_score] at h

/-- Claim C8: `add_sensor` appends the sensor exactly when its coordinates
lie in `[0,width] x [0,height]` and leaves the fog-node list unchanged;
otherwise it raises a bounds-violation error and the environment is
untouched; and symmetrically for `add_fog_node`. -/
theorem add_entity_bounds (env : DigitalTwinEnvironment) (s : SensorDevice)
    (f : FogNodeDevice) :
    (inBounds env s.x s.y →
      add_sensor env s = Except.ok { env with sensors := env.sensors ++ [s] })
    ∧ (¬ inBounds env s.x s.y →
      add_sensor env s
        = Except.error "ValueError: Sensor coordinates outside environment bounds")
    ∧ (inBounds env f.x f.y →
      add_fog_node env f
        = Except.ok { env with fog_nodes := env.fog_nodes ++ [f] })
    ∧ (¬ inBounds env f.x f.y →
      add_fog_node env f
        = Except.error "ValueError: Fog node coordinates outside environment bounds") := by
  refine ⟨fun h => ?_, fun h => ?_, fun h => ?_, fun h => ?_⟩ <;>
    simp [add_sensor, add_fog_node, h]

/-- Witness for C8: in `env0` the in-bounds `sensor0` is appended (fog list
untouched) and the out-of-bounds `fogOut` is rejected with the error. -/
theorem add_entity_bounds_witness :
    add_sensor env0 sensor0
      = Except.ok { env0 with sensors := env0.sensors ++ [sensor0] }
    ∧ add_fog_node env0 fogOut
      = Except.error "ValueError: Fog node coordinates outside environment bounds" := by
  constructor
  · exact (add_entity_bounds env0 sensor0 fogOut).1 (by
      constructor
      · norm_num [sensor0]
      refine ⟨?_, ?_, ?_⟩ <;> norm_num [sensor0, env0])
  · exact (add_entity_bounds env0 sensor0 fogOut).2.2.2 (by
      intro h
      have := h.1
      norm_num [fogOut] at this)

/-- Helper: the distance from `sensor0` to `fog0` is 5. -/
theorem distance_sensor0_fog0 :
    calculate_distance sensor0.x sensor0.y fog0.x fog0.y = 5 := by
  unfold calculate_distance
  rw [show (((sensor0.x : ℝ)) - ((fog0.x : ℝ))) ^ 2
        + (((sensor0.y : ℝ)) - ((fog0.y : ℝ))) ^ 2 = 5 ^ 2 by
    norm_num [sensor0, fog0]]
  exact Real.sqrt_sq (by norm_num)

/-- Helper: the capacity chain of `calculate_communication_latency` evaluates
to `cap0` on `sensor0`/`fog0` (the wavelength is exactly 1, so
`10^(gain/10)` recovers `1/(400*pi^2)` and the SNR is `4/pi^2`). -/
theorem deviceCapacityOf_fog0 : deviceCapacityOf sensor0 fog0 = some cap0 := by
  have hcf : ((fog0.carrierFrequency : ℝ)) * 1e9 = 299792458 := by
    norm_num [fog0]
  have hwl : speed_of_light / (((fog0.carrierFrequency : ℝ)) * 1e9) = 1 := by
    rw [hcf]; norm_num [speed_of_light]
  have hgpos : (0 : ℝ) < (1 : ℝ) ^ 2 / (4 * Real.pi * 5) ^ 2 := by positivity
  have hrpow : (10 : ℝ) ^ ((10 * Real.logb 10 ((1 : ℝ) ^ 2 / (4 * Real.pi * 5) ^ 2)) / 10)
      = (1 : ℝ) ^ 2 / (4 * Real.pi * 5) ^ 2 := by
    rw [show (10 * Real.logb 10 ((1 : ℝ) ^ 2 / (4 * Real.pi * 5) ^ 2)) / 10
          = Real.logb 10 ((1 : ℝ) ^ 2 / (4 * Real.pi * 5) ^ 2) by ring]
    exact Real.rpow_logb (by norm_num) (by norm_num) hgpos
  simp only [deviceCapacityOf, distance_sensor0_fog0, hwl]
  rw [if_neg (by rw [hcf]; norm_num)]
  rw [if_neg (by positivity)]
  rw [if_neg (not_le.mpr hgpos)]
  rw [if_neg (by norm_num [fog0])]
  rw [hrpow]
  unfold cap0
  rw [show ((fog0.bandwidth : ℝ)) = 1 / 10 by norm_num [fog0],
      show ((sensor0.transmissionPower : ℝ)) = 1600 by norm_num [sensor0],
      show ((fog0.noisePower : ℝ)) = 1 by norm_num [fog0]]
  have hπ : Real.pi ≠ 0 := Real.pi_ne_zero
  congr 1
  field_simp
  ring

/-- Helper: `cap0` is positive. -/
theorem cap0_pos : 0 < cap0 := by
  unfold cap0; positivity

/-- Helper: `cap0 ≤ 1`, so a single unit of traffic saturates `fog0`. -/
theorem cap0_le_one : cap0 ≤ 1 := by
  unfold cap0
  have h3 : (3 : ℝ) < Real.pi := Real.pi_gt_three
  have h9 : (9 : ℝ) < Real.pi ^ 2 := by nlinarith
  have h4 : 4 / Real.pi ^ 2 ≤ 1 := by
    rw [div_le_one (by positivity)]
    nlinarith
  nlinarith

/-- Helper: `sensor0` alone already saturates `fog0`'s traffic capacity. -/
theorem one_le_totalTrafficLoad0 : 1 ≤ totalTrafficLoad cap0 sensor0 [] := by
  have : totalTrafficLoad cap0 sensor0 [] = 1 / cap0 := by
    simp [totalTrafficLoad, sensor0]
  rw [this, le_div_iff₀ cap0_pos, one_mul]
  exact cap0_le_one

/-- Helper: the communication latency of `sensor0` on `fog0` with no prior
assignments is exactly the clamp value `99`. -/
theorem comm_sensor0_fog0 :
    calculate_communication_latency sensor0 fog0 [] = some 99 := by
  simp only [calculate_communication_latency, deviceCapacityOf_fog0]
  rw [if_neg (ne_of_gt cap0_pos), if_pos one_le_totalTrafficLoad0]
  norm_num

/-- Helper: the computing latency of `sensor0` on `fog0` with no prior
assignments is exactly the clamp value `99` (individual load `200/100 = 2`). -/
theorem comp_sensor0_fog0 :
    calculate_computing_latency sensor0 fog0 [] = some 99 := by
  norm_num [calculate_computing_latency, totalComputingLoad, sensor0, fog0]

/-- Claim C4: whenever the total traffic load reaches 1 (given the capacity
chain succeeded with a nonzero capacity), `calculate_communication_latency`
returns exactly `0.99 / 0.01 = 99` — finite, non-negative, no exception —
and likewise `calculate_computing_latency` when the total computing load
reaches 1 with a nonzero processing power. -/
theorem clamp_correctness :
    (∀ (s : SensorDevice) (f : FogNodeDevice) (assigned : List SensorDevice)
        (capacity : ℝ),
      deviceCapacityOf s f = some capacity → capacity ≠ 0 →
      1 ≤ totalTrafficLoad capacity s assigned →
      calculate_communication_latency s f assigned = some 99)
    ∧ (∀ (s : SensorDevice) (f : FogNodeDevice) (assigned : List SensorDevice),
      f.processingPower ≠ 0 → 1 ≤ totalComputingLoad s f assigned →
      calculate_computing_latency s f assigned = some 99) := by
  constructor
  · intro s f assigned capacity hcap hne hload
    simp only [calculate_communication_latency, hcap]
    rw [if_neg hne, if_pos hload]
    norm_num
  · intro s f assigned hpp hload
    simp only [calculate_computing_latency]
    rw [if_neg hpp, if_pos hload]
    norm_num

/-- Witness for C4 at `sensor0`/`fog0`: both clamped latencies are `99`. -/
theorem clamp_correctness_witness :
    calculate_communication_latency sensor0 fog0 [] = some 99
    ∧ calculate_computing_latency sensor0 fog0 [] = some 99 := by
  constructor
  · exact clamp_correctness.1 sensor0 fog0 [] cap0 deviceCapacityOf_fog0
      (ne_of_gt cap0_pos) one_le_totalTrafficLoad0
  · exact clamp_correctness.2 sensor0 fog0 [] (by norm_num [fog0])
      (by norm_num [totalComputingLoad, sensor0, fog0])

/-- Invariant of the running-minimum loop of `_find_optimal_fog_node`:
starting at index `i` with an accumulator whose index (if any) is below `i`,
the loop returns `none` only if it started from `none` and every remaining
node is rejected; and when it returns `some (j, t)`, that pair either is the
accumulator or comes from a remaining node, it is no worse than the
accumulator (strictly better unless equal, in which case the accumulator's
earlier index is kept), and it is minimal among all remaining node scores
with ties resolved to the earliest index. -/
theorem findBest_spec (s : SensorDevice) (asg : AssignMap) :
    ∀ (fogs : List FogNodeDevice) (i : ℕ) (best : Option (ℕ × ℝ)),
    (∀ j m, best = some (j, m) → j < i) →
    ((findBest s asg i fogs best = none → best = none ∧
        ∀ k f, fogs.get? k = some f → nodeTotal s asg (i + k) f = none)
    ∧ (∀ j t, findBest s asg i fogs best = some (j, t) →
        ((best = some (j, t) ∨
          ∃ k f, fogs.get? k = some f ∧ j = i + k
            ∧ nodeTotal s asg (i + k) f = some t)
        ∧ (∀ j0 m, best = some (j0, m) → t ≤ m ∧ (t = m → j ≤ j0))
        ∧ (∀ k f u, fogs.get? k = some f → nodeTotal s asg (i + k) f = some u →
            t ≤ u ∧ (u = t → j ≤ i + k))))) := by
  intro fogs
  induction fogs with
  | nil =>
    intro i best hb
    constructor
    · intro hnone
      refine ⟨by simpa [findBest] using hnone, ?_⟩
      intro k f hk
      simp at hk
    · intro j t hjt
      have hb' : best = some (j, t) := by simpa [findBest] using hjt
      refine ⟨Or.inl hb', ?_, ?_⟩
      · intro j0 m hm
        rw [hb'] at hm
        simp only [Option.some.injEq, Prod.mk.injEq] at hm
        exact ⟨le_of_eq hm.2, fun _ => le_of_eq hm.1⟩
      · intro k f u hk hu
        simp at hk
  | cons f fs ih =>
    intro i best hb
    cases hnt : nodeTotal s asg i f with
    | none =>
      have hstep : findBest s asg i (f :: fs) best = findBest s asg (i + 1) fs best := by
        simp only [findBest, hnt]
      have hb1 : ∀ j m, best = some (j, m) → j < i + 1 :=
        fun j m h => Nat.lt_succ_of_lt (hb j m h)
      have IH := ih (i + 1) best hb1
      constructor
      · intro hnone
        rw [hstep] at hnone
        obtain ⟨hbn, hall⟩ := IH.1 hnone
        refine ⟨hbn, ?_⟩
        intro k g hk
        cases k with
        | zero =>
          simp only [List.get?_cons_zero, Option.some.injEq] at hk
          rw [Nat.add_zero, ← hk]
          exact hnt
        | succ k =>
          simp only [List.get?_cons_succ] at hk
          have := hall k g hk
          rw [show i + (k + 1) = (i + 1) + k by omega]
          exact this
      · intro j t hjt
        rw [hstep] at hjt
        obtain ⟨horigin, hbmid, hall⟩ := IH.2 j t hjt
        refine ⟨?_, hbmid, ?_⟩
        · rcases horigin with h | h
          · exact Or.inl h
          · obtain ⟨k, g, hk, hj, hg⟩ := h
            refine Or.inr ⟨k + 1, g, by simpa using hk, by omega, ?_⟩
            rw [show i + (k + 1) = (i + 1) + k by omega]
            exact hg
        · intro k g u hk hu
          cases k with
          | zero =>
            simp only [List.get?_cons_zero, Option.some.injEq] at hk
            rw [Nat.add_zero, ← hk, hnt] at hu
            exact absurd hu (by simp)
          | succ k =>
            simp only [List.get?_cons_succ] at hk
            have := hall k g u hk
              (by rw [show (i + 1) + k = i + (k + 1) by omega]; exact hu)
            rw [show i + (k + 1) = (i + 1) + k by omega]
            exact this
    | some t0 =>
      cases best with
      | none =>
        have hstep : findBest s asg i (f :: fs) none
            = findBest s asg (i + 1) fs (some (i, t0)) := by
          simp only [findBest, hnt]
        have hb1 : ∀ j m, (some (i, t0) : Option (ℕ × ℝ)) = some (j, m) → j < i + 1 := by
          intro j m h
          simp only [Option.some.injEq, Prod.mk.injEq] at h
          omega
        have IH := ih (i + 1) (some (i, t0)) hb1
        constructor
        · intro hnone
          rw [hstep] at hnone
          obtain ⟨hbn, -⟩ := IH.1 hnone
          exact absurd hbn (by simp)
        · intro j t hjt
          rw [hstep] at hjt
          obtain ⟨horigin, hbmid, hall⟩ := IH.2 j t hjt
          have hmid := hbmid i t0 rfl
          refine ⟨?_, ?_, ?_⟩
          · rcases horigin with h | h
            · simp only [Option.some.injEq, Prod.mk.injEq] at h
              refine Or.inr ⟨0, f, by simp, by omega, ?_⟩
              rw [Nat.add_zero, hnt, h.2]
            · obtain ⟨k, g, hk, hj, hg⟩ := h
              refine Or.inr ⟨k + 1, g, by simpa using hk, by omega, ?_⟩
              rw [show i + (k + 1) = (i + 1) + k by omega]
              exact hg
          · intro j0 m hm
            exact absurd hm (by simp)
          · intro k g u hk hu
            cases k with
            | zero =>
              simp only [List.get?_cons_zero, Option.some.injEq] at hk
              rw [Nat.add_zero, ← hk, hnt] at hu
              simp only [Option.some.injEq] at hu
              rw [Nat.add_zero]
              refine ⟨hu ▸ hmid.1, fun h => hmid.2 ?_⟩
              exact (hu.trans h).symm
            | succ k =>
              simp only [List.get?_cons_succ] at hk
              have := hall k g u hk
                (by rw [show (i + 1) + k = i + (k + 1) by omega]; exact hu)
              rw [show i + (k + 1) = (i + 1) + k by omega]
              exact this
      | some p =>
        obtain ⟨j0', m0⟩ := p
        by_cases hlt : t0 < m0
        · have hstep : findBest s asg i (f :: fs) (some (j0', m0))
              = findBest s asg (i + 1) fs (some (i, t0)) := by
            simp only [findBest, hnt, if_pos hlt]
          have hb1 : ∀ j m, (some (i, t0) : Option (ℕ × ℝ)) = some (j, m) → j < i + 1 := by
            intro j m h
            simp only [Option.some.injEq, Prod.mk.injEq] at h
            omega
          have IH := ih (i + 1) (some (i, t0)) hb1
          constructor
          · intro hnone
            rw [hstep] at hnone
            obtain ⟨hbn, -⟩ := IH.1 hnone
            exact absurd hbn (by simp)
          · intro j t hjt
            rw [hstep] at hjt
            obtain ⟨horigin, hbmid, hall⟩ := IH.2 j t hjt
            have hmid := hbmid i t0 rfl
            refine ⟨?_, ?_, ?_⟩
            · rcases horigin with h | h
              · simp only [Option.some.injEq, Prod.mk.injEq] at h
                refine Or.inr ⟨0, f, by simp, by omega, ?_⟩
                rw [Nat.add_zero, hnt, h.2]
              · obtain ⟨k, g, hk, hj, hg⟩ := h
                refine Or.inr ⟨k + 1, g, by simpa using hk, by omega, ?_⟩
                rw [show i + (k + 1) = (i + 1) + k by omega]
                exact hg
            · intro j0 m hm
              simp only [Option.some.injEq, Prod.mk.injEq] at hm
              constructor
              · calc t ≤ t0 := hmid.1
                  _ ≤ m0 := le_of_lt hlt
                  _ = m := hm.2
              · intro h
                exfalso
                have h1 := hmid.1
                rw [← hm.2] at h
                linarith
            · intro k g u hk hu
              cases k with
              | zero =>
                simp only [List.get?_cons_zero, Option.some.injEq] at hk
                rw [Nat.add_zero, ← hk, hnt] at hu
                simp only [Option.some.injEq] at hu
                rw [Nat.add_zero]
                refine ⟨hu ▸ hmid.1, fun h => hmid.2 ?_⟩
                exact (hu.trans h).symm
              | succ k =>
                simp only [List.get?_cons_succ] at hk
                have := hall k g u hk
                  (by rw [show (i + 1) + k = i + (k + 1) by omega]; exact hu)
                rw [show i + (k + 1) = (i + 1) + k by omega]
                exact this
        · have hstep : findBest s asg i (f :: fs) (some (j0', m0))
              = findBest s asg (i + 1) fs (some (j0', m0)) := by
            simp only [findBest, hnt, if_neg hlt]
          have hb1 : ∀ j m, (some (j0', m0) : Option (ℕ × ℝ)) = some (j, m) → j < i + 1 := by
            intro j m h
            have := hb j m h
            omega
          have IH := ih (i + 1) (some (j0', m0)) hb1
          constructor
          · intro hnone
            rw [hstep] at hnone
            obtain ⟨hbn, -⟩ := IH.1 hnone
            exact absurd hbn (by simp)
          · intro j t hjt
            rw [hstep] at hjt
            obtain ⟨horigin, hbmid, hall⟩ := IH.2 j t hjt
            have hmid := hbmid j0' m0 rfl
            refine ⟨?_, ?_, ?_⟩
            · rcases horigin with h | h
              · exact Or.inl h
              · obtain ⟨k, g, hk, hj, hg⟩ := h
                refine Or.inr ⟨k + 1, g, by simpa using hk, by omega, ?_⟩
                rw [show i + (k + 1) = (i + 1) + k by omega]
                exact hg
            · intro j0 m hm
              simp only [Option.some.injEq, Prod.mk.injEq] at hm
              refine ⟨hm.2 ▸ hmid.1, fun h => ?_⟩
              rw [← hm.1]
              exact hmid.2 (by rw [h, hm.2])
            · intro k g u hk hu
              cases k with
              | zero =>
                simp only [List.get?_cons_zero, Option.some.injEq] at hk
                rw [Nat.add_zero, ← hk, hnt] at hu
                simp only [Option.some.injEq] at hu
                push_neg at hlt
                have hj0i : j0' < i := hb j0' m0 rfl
                rw [Nat.add_zero]
                constructor
                · calc t ≤ m0 := hmid.1
                    _ ≤ t0 := hlt
                    _ = u := hu
                · intro h
                  have htm : t = m0 := by
                    have h1 := hmid.1
                    rw [hu] at hlt
                    rw [h] at hlt
                    linarith
                  have := hmid.2 htm
                  omega
              | succ k =>
                simp only [List.get?_cons_succ] at hk
                have := hall k g u hk
                  (by rw [show (i + 1) + k = i + (k + 1) by omega]; exact hu)
                rw [show i + (k + 1) = (i + 1) + k by omega]
                exact this

/-- Claim C5: whenever some fog node yields a finite `comm + comp` total for
the sensor, `_find_optimal_fog_node` returns an index `j` whose total (at the
decision-time assignment map) is minimal over all fog nodes, and among nodes
attaining the minimum `j` is the first in iteration order. -/
theorem find_optimal_minimizes (s : SensorDevice) (fogs : List FogNodeDevice)
    (asg : AssignMap) (h : ∃ k t, totalAt s asg fogs k = some t) :
    ∃ j t, find_optimal_fog_node s fogs asg = some j
      ∧ totalAt s asg fogs j = some t
      ∧ ∀ k u, totalAt s asg fogs k = some u → t ≤ u ∧ (u = t → j ≤ k) := by
  obtain ⟨k0, t0, hk0⟩ := h
  have spec := findBest_spec s asg fogs 0 none (by intro j m hm; simp at hm)
  cases hres : findBest s asg 0 fogs none with
  | none =>
    exfalso
    obtain ⟨-, hall⟩ := spec.1 hres
    unfold totalAt at hk0
    cases hg : fogs.get? k0 with
    | none => rw [hg] at hk0; simp at hk0
    | some g =>
      rw [hg] at hk0
      have hk0' : nodeTotal s asg k0 g = some t0 := hk0
      have := hall k0 g hg
      rw [Nat.zero_add] at this
      rw [this] at hk0'
      simp at hk0'
  | some jt =>
    obtain ⟨j, t⟩ := jt
    obtain ⟨horigin, -, hall⟩ := spec.2 j t hres
    refine ⟨j, t, ?_, ?_, ?_⟩
    · simp [find_optimal_fog_node, hres]
    · rcases horigin with habs | hex
      · simp at habs
      · obtain ⟨k, g, hk, hj, hg⟩ := hex
        rw [Nat.zero_add] at hj hg
        unfold totalAt
        rw [hj, hk]
        exact hg
    · intro k u hk
      unfold totalAt at hk
      cases hg : fogs.get? k with
      | none => rw [hg] at hk; simp at hk
      | some g =>
        rw [hg] at hk
        have hk' : nodeTotal s asg k g = some u := hk
        have := hall k g u hg (by rw [Nat.zero_add]; exact hk')
        rw [Nat.zero_add] at this
        exact this

/-- Helper: the total latency of `sensor0` on `fog0` with the empty
assignment map is `99 + 99 = 198`. -/
theorem nodeTotal_sensor0_fog0 : nodeTotal sensor0 [] 0 fog0 = some 198 := by
  have hasg : assignedOf [] 0 = [] := rfl
  simp only [nodeTotal, hasg, comm_sensor0_fog0, comp_sensor0_fog0]
  norm_num

/-- Witness for C5 at `sensor0` with the single node `fog0`. -/
theorem find_optimal_minimizes_witness :
    ∃ j t, find_optimal_fog_node sensor0 [fog0] [] = some j
      ∧ totalAt sensor0 [] [fog0] j = some t
      ∧ ∀ k u, totalAt sensor0 [] [fog0] k = some u → t ≤ u ∧ (u = t → j ≤ k) :=
  find_optimal_minimizes sensor0 [fog0] []
    ⟨0, 198, by simpa [totalAt] using nodeTotal_sensor0_fog0⟩

/-- Helper: `pushAssign` adds exactly one occurrence of the pushed sensor to
the multiset of entries of the assignment map. -/
theorem count_flattenAssign_pushAssign (asg : AssignMap) (j : ℕ)
    (s x : SensorDevice) :
    (flattenAssign (pushAssign asg j s)).count x
      = (flattenAssign asg).count x + if x = s then 1 else 0 := by
  induction asg with
  | nil =>
    by_cases hx : x = s <;>
      simp [pushAssign, flattenAssign, List.count_cons, hx]
  | cons p rest ih =>
    obtain ⟨k, l⟩ := p
    by_cases hk : k = j
    · by_cases hx : x = s <;>
        simp [pushAssign, hk, flattenAssign, List.count_append, List.count_cons, hx] <;>
        omega
    · simp only [pushAssign, if_neg hk]
      simp only [flattenAssign, List.map_cons, List.flatten_cons, List.count_append]
      have ih' := ih
      simp only [flattenAssign] at ih'
      omega

/-- Helper: the multiset of sensors recorded by the `initial_allocation`
loop equals the starting map's entries plus the successfully placed trace. -/
theorem count_flattenAssign_allocGo (sensors : List SensorDevice)
    (fogs : List FogNodeDevice) :
    ∀ (ms : List String) (asg : AssignMap) (log : List (String × String))
      (x : SensorDevice),
    (flattenAssign (allocGo sensors fogs ms asg log).1).count x
      = (flattenAssign asg).count x + (allocPlaced sensors fogs ms asg).count x := by
  intro ms
  induction ms with
  | nil => intro asg log x; simp [allocGo, allocPlaced]
  | cons m ms ih =>
    intro asg log x
    simp only [allocGo, allocPlaced]
    cases hf : find_sensor_by_id sensors (extract_sensor_id m) with
    | none =>
      simp only [hf]
      exact ih asg log x
    | some s =>
      simp only [hf]
      cases ho : find_optimal_fog_node s fogs asg with
      | none =>
        simp only [ho]
        exact ih asg (log ++ [(m, "fog_0")]) x
      | some j =>
        simp only [ho]
        rw [ih (pushAssign asg j s) (log ++ [(m, "fog_" ++ toString j)]) x,
          count_flattenAssign_pushAssign, List.count_cons]
        by_cases hx : x = s
        · subst hx
          simp only [if_pos rfl, beq_self_eq_true, if_true]
          omega
        · simp only [if_neg hx, beq_iff_eq, if_neg (Ne.symm hx)]
          omega

/-- Claim C1 counterexample: with one sensor co-located with the only fog
node, every node is rejected (the zero-distance `ZeroDivisionError` makes the
communication latency infinite), `initial_allocation` deploys the module to
`"fog_0"` through the fallback branch, but records NOTHING in
`module_assignments`: the sensor appears in no node's list, refuting the
claim that it is recorded at node 0. -/
theorem initial_allocation_fallback_unrecorded :
    initial_allocation [sensor3] [fog3] ["Processing_Module_Sensor_3"]
      = ([], [("Processing_Module_Sensor_3", "fog_0")]) := by
  have hfilter : (["Processing_Module_Sensor_3"].filter isProcessingModule)
      = ["Processing_Module_Sensor_3"] := by decide
  have hfind : find_sensor_by_id [sensor3]
      (extract_sensor_id "Processing_Module_Sensor_3") = some sensor3 := by
    have hex : extract_sensor_id "Processing_Module_Sensor_3" = 3 := by decide
    rw [hex]
    rfl
  have hnone : nodeTotal sensor3 [] 0 fog3 = none := by
    have hc := comm_none_of_equal_coords sensor3 fog3 rfl rfl (assignedOf [] 0)
    simp [nodeTotal, hc]
  have hopt : find_optimal_fog_node sensor3 [fog3] [] = none := by
    simp [find_optimal_fog_node, findBest, hnone]
  unfold initial_allocation
  rw [hfilter]
  simp [allocGo, hfind, hopt]

/-- Claim C1 (amended): the sensors recorded across `module_assignments`
after `initial_allocation` are exactly the successfully placed trace
(modules that pass the `Processing_Module` filter, whose sensor lookup
succeeds, and whose OLB decision returns a node), with the right
multiplicities; in particular, when that trace has no duplicate sensors,
every traced sensor appears in exactly one node's list.  Sensors whose every
node is rejected are deployed to `"fog_0"` but NOT recorded (see the
counterexample). -/
theorem initial_allocation_coverage (sensors : List SensorDevice)
    (fog_nodes : List FogNodeDevice) (modules : List String) :
    (∀ x : SensorDevice,
      (flattenAssign (initial_allocation sensors fog_nodes modules).1).count x
        = (allocPlaced sensors fog_nodes
            (modules.filter isProcessingModule) []).count x)
    ∧ ((allocPlaced sensors fog_nodes (modules.filter isProcessingModule) []).Nodup →
      ∀ x ∈ allocPlaced sensors fog_nodes (modules.filter isProcessingModule) [],
        (flattenAssign (initial_allocation sensors fog_nodes modules).1).count x
          = 1) := by
  have h1 : ∀ x : SensorDevice,
      (flattenAssign (initial_allocation sensors fog_nodes modules).1).count x
        = (allocPlaced sensors fog_nodes
            (modules.filter isProcessingModule) []).count x := by
    intro x
    unfold initial_allocation
    rw [count_flattenAssign_allocGo]
    simp [flattenAssign]
  refine ⟨h1, fun hnd x hx => ?_⟩
  rw [h1 x]
  exact List.count_eq_one_of_mem hnd hx

/-- Helper: the OLB decision for `sensor0` with the single candidate `fog0`
selects node 0 (total `198` is finite). -/
theorem find_optimal_sensor0 : find_optimal_fog_node sensor0 [fog0] [] = some 0 := by
  simp [find_optimal_fog_node, findBest, nodeTotal_sensor0_fog0]

/-- Helper: the placement trace of the one-module run is `[sensor0]`. -/
theorem allocPlaced_sensor0 :
    allocPlaced [sensor0] [fog0]
      (["Processing_Module_Sensor_0"].filter isProcessingModule) [] = [sensor0] := by
  have hfilter : (["Processing_Module_Sensor_0"].filter isProcessingModule)
      = ["Processing_Module_Sensor_0"] := by decide
  have hfind : find_sensor_by_id [sensor0]
      (extract_sensor_id "Processing_Module_Sensor_0") = some sensor0 := by
    have hex : extract_sensor_id "Processing_Module_Sensor_0" = 0 := by decide
    rw [hex]
    rfl
  rw [hfilter]
  simp [allocPlaced, hfind, find_optimal_sensor0]

/-- Witness for C1 (amended) on a concrete run that places one sensor. -/
theorem initial_allocation_coverage_witness :
    (flattenAssign
      (initial_allocation [sensor0] [fog0] ["Processing_Module_Sensor_0"]).1).count
        sensor0 = 1 := by
  have h := (initial_allocation_coverage [sensor0] [fog0]
    ["Processing_Module_Sensor_0"]).2
  rw [allocPlaced_sensor0] at h
  exact h (by simp) sensor0 (by simp)

/-- Claim C10: a module name whose underscore-separated parts contain no
all-digit segment is mapped to sensor id 0 by `_extract_sensor_id`, and when
a sensor with `device_id = 0` exists, `_find_sensor_by_id` resolves the
module to that sensor, so the module is placed as if it were that sensor's
module rather than rejected or skipped. -/
theorem extract_id_defaults_to_zero (m : String) (sensors : List SensorDevice)
    (h : ∀ p ∈ splitParts m.toList, isDigitPart p = false)
    (h0 : ∃ s ∈ sensors, s.device_id = 0) :
    extract_sensor_id m = 0
    ∧ ∃ s, find_sensor_by_id sensors (extract_sensor_id m) = some s
        ∧ s.device_id = 0 := by
  have hz : extract_sensor_id m = 0 := by
    unfold extract_sensor_id
    have hnone : (splitParts m.toList).reverse.find? isDigitPart = none := by
      rw [List.find?_eq_none]
      intro p hp
      simp [h p (List.mem_reverse.mp hp)]
    rw [hnone]
  refine ⟨hz, ?_⟩
  rw [hz]
  obtain ⟨s, hs, hid⟩ := h0
  unfold find_sensor_by_id
  have hsome : (sensors.find? (fun a => a.device_id == 0)).isSome := by
    rw [List.find?_isSome]
    exact ⟨s, hs, by simp [hid]⟩
  obtain ⟨a, ha⟩ := Option.isSome_iff_exists.mp hsome
  refine ⟨a, ha, ?_⟩
  have := List.find?_some ha
  simpa using this

/-- Witness for C10: `"Processing_Module_Sensor_A"` has no digit segment,
is mapped to id 0, and resolves to `sensor0`. -/
theorem extract_id_defaults_to_zero_witness :
    extract_sensor_id "Processing_Module_Sensor_A" = 0
    ∧ ∃ s, find_sensor_by_id [sensor0]
        (extract_sensor_id "Processing_Module_Sensor_A") = some s
        ∧ s.device_id = 0 :=
  extract_id_defaults_to_zero "Processing_Module_Sensor_A" [sensor0]
    (by decide) ⟨sensor0, by simp, rfl⟩

/-- Claim C2 (code bug): `collect_metrics` reads the per-assignment local
`energy` in its `[TRACE]` diagnostic before computing it in that iteration;
on the first (node, sensor) pair of any placement with an assigned sensor on
a valid node the local is unbound, so the collector aborts with
`UnboundLocalError` instead of completing and producing the aggregates. -/
theorem collect_metrics_unbound_energy :
    collect_metrics dt2 [(0, [sensor0])]
      = Except.error
          "UnboundLocalError: local variable energy referenced before assignment" := by
  simp [collect_metrics, metricsOuter, metricsInner, dt2]

/-- Claim C6 (amended): `calculate_energy_consumption` returns transmission
energy plus processing energy where the transmission term divides the
traffic size by `bandwidth * 1e-3` — i.e. `1000 * transmissionPower *
(trafficSize / bandwidth)`, 1000x the value claimed — and the processing
term is `1e-6 * processingPower * (flowSize / processingPower * 1e-3)
= 1e-9 * processingPower * (flowSize / processingPower)`. -/
theorem calculate_energy_consumption_eq (s : SensorDevice) (f : FogNodeDevice)
    (d : ℝ) (hbw : f.bandwidth ≠ 0) (hpp : f.processingPower ≠ 0) :
    calculate_energy_consumption s f d
      = some (1000 * (s.transmissionPower * (s.flowTrafficSize / f.bandwidth))
          + (1 / 1000000000) * f.processingPower
              * (s.averageFlowSize / f.processingPower)) := by
  unfold calculate_energy_consumption transmission_energy processing_energy
  rw [if_neg (mul_ne_zero hbw (by norm_num)), if_neg hpp]
  congr 1
  field_simp
  ring

/-- Witness for C6 (amended) at the all-ones devices. -/
theorem calculate_energy_consumption_eq_witness :
    calculate_energy_consumption sensor6 fog6 0
      = some (1000 * (sensor6.transmissionPower
            * (sensor6.flowTrafficSize / fog6.bandwidth))
          + (1 / 1000000000) * fog6.processingPower
              * (sensor6.averageFlowSize / fog6.processingPower)) :=
  calculate_energy_consumption_eq sensor6 fog6 0
    (by norm_num [fog6]) (by norm_num [fog6])

/-- Helper: the sum of a constant list. -/
theorem list_sum_const (l : List ℚ) (c : ℚ) (h : ∀ x ∈ l, x = c) :
    l.sum = (l.length : ℚ) * c := by
  induction l with
  | nil => simp
  | cons a l ih =>
    rw [List.sum_cons, ih (fun x hx => h x (List.mem_cons_of_mem a hx)),
      h a (List.mem_cons_self a l), List.length_cons]
    push_cast
    ring

/-- Claim C7 (amended): for every NONEMPTY assignment map the load-balance
score `1 / (1 + variance of per-node counts)` lies in `(0, 1]`, equals `1`
when only one node is used or when all nodes present carry equal sensor
counts, and is strictly below `1` for the uneven `3/1` split.  (The empty
map returns `0` — see the counterexample.) -/
theorem load_balance_score_bounds :
    (∀ asg : AssignMap, asg ≠ [] →
      0 < calculate_load_balance_score asg
      ∧ calculate_load_balance_score asg ≤ 1
      ∧ ((∀ p ∈ asg, ∀ q ∈ asg, p.2.length = q.2.length) →
          calculate_load_balance_score asg = 1))
    ∧ calculate_load_balance_score
        [(0, [sensor0, sensor0, sensor0]), (1, [sensor0])] < 1 := by
  constructor
  · intro asg hne
    simp only [calculate_load_balance_score, if_neg hne]
    set loads := asg.map (fun p => ((p.2.length : ℚ))) with hloads
    by_cases hlen : loads.length ≤ 1
    · rw [if_pos hlen]
      exact ⟨one_pos, le_refl 1, fun _ => rfl⟩
    · rw [if_neg hlen]
      have hl2 : 2 ≤ loads.length := by omega
      have hlpos : (0 : ℚ) < (loads.length : ℚ) := by
        have : 0 < loads.length := by omega
        exact_mod_cast this
      have hvar : 0 ≤ (loads.map
          fun load => (load - loads.sum / (loads.length : ℚ)) ^ 2).sum
            / (loads.length : ℚ) := by
        apply div_nonneg _ (le_of_lt hlpos)
        apply List.sum_nonneg
        intro v hv
        obtain ⟨a, -, rfl⟩ := List.mem_map.mp hv
        positivity
      refine ⟨?_, ?_, ?_⟩
      · apply div_pos one_pos
        linarith
      · rw [div_le_one (by linarith)]
        linarith
      · intro hEq
        obtain ⟨p0, hp0⟩ : ∃ p0, p0 ∈ asg := List.exists_mem_of_ne_nil asg hne
        have hall : ∀ v ∈ loads, v = ((p0.2.length : ℚ)) := by
          intro v hv
          obtain ⟨q, hq, rfl⟩ := List.mem_map.mp hv
          exact_mod_cast congrArg (fun n : ℕ => (n : ℚ)) (hEq q hq p0 hp0)
        have hsum : loads.sum = (loads.length : ℚ) * ((p0.2.length : ℚ)) :=
          list_sum_const loads _ hall
        have hmean : loads.sum / (loads.length : ℚ) = ((p0.2.length : ℚ)) := by
          rw [hsum]
          field_simp
        have hzero : (loads.map
            fun load => (load - loads.sum / (loads.length : ℚ)) ^ 2).sum = 0 := by
          apply List.sum_eq_zero
          intro v hv
          obtain ⟨a, ha, rfl⟩ := List.mem_map.mp hv
          rw [hmean, hall a ha]
          ring
        rw [hzero]
        norm_num
  · have hne : ([(0, [sensor0, sensor0, sensor0]), (1, [sensor0])] : AssignMap) ≠ [] := by
      simp
    norm_num [calculate_load_balance_score, hne]

/-- Witness for C7 (amended): the even `2/2` split scores exactly `1` and a
nonempty single-node map has a positive score. -/
theorem load_balance_score_bounds_witness :
    calculate_load_balance_score [(0, [sensor0, sensor0]), (1, [sensor0, sensor0])] = 1
    ∧ 0 < calculate_load_balance_score [(0, [sensor0])] := by
  constructor
  · exact (load_balance_score_bounds.1
      [(0, [sensor0, sensor0]), (1, [sensor0, sensor0])] (by simp)).2.2 (by decide)
  · exact (load_balance_score_bounds.1 [(0, [sensor0])] (by simp)).1
